import Mathlib

/-!
Verification development for the try-on HTTP façade (repository alexff91/try-on).

The repository contains two source files: `src/app.mjs` (a service on port 8080
exposing POST /tryon and POST /tryon/base64 against the fixed remote model
"alexff91/FitMirror") and `src/unnamed/part_000`, which holds three documents:
the main rate-limited service (POST /tryon, /tryon/base64, /tryon/media,
/tryon/url, /check-wardrobe, /check-person, with model selection by `type`),
a simpler duplicate service on port 3000, and a standalone client script.

Each Express route handler is embedded as a pure Lean function from a request
and a failure oracle to the list of side effects the handler performs (in
order) together with the HTTP response it sends.  The oracle decides, for each
kind of fallible awaited step, whether the step succeeds or throws (and with
which message), and supplies the remote model's result URL.  The handler's
try/catch structure is embedded by a script runner that records each attempted
effect and converts the first thrown error into the 500 JSON response produced
by the catch block.
-/

/-- Provenance-tracking image bytes: a byte buffer as handled by the service.
`file p` is the content of file `p`; `b64decode s` is `Buffer.from(s, "base64")`;
`resizedOf b w h` is the output of `sharp(...).resize(w, h)` applied to `b`;
`fetched u` is the body downloaded from URL `u`; `missing` stands for the
absent buffer when an image slot has no source (`undefined` path in JS). -/
inductive Bytes where
  | file (path : String)
  | b64decode (s : String)
  | resizedOf (b : Bytes) (w h : Nat)
  | fetched (url : String)
  | missing
deriving DecidableEq, Repr

/-- The positional argument array of `appClient.predict("/tryon", [...])`:
`[{background, layers, composite}, garment, description, true, true, 30, 42]`.
Field order mirrors the positional order of the source array. -/
structure Payload where
  background : Bytes
  layers : List Bytes
  composite : Option Bytes
  garment : Bytes
  description : String
  autoMask : Bool
  autoCrop : Bool
  denoisingSteps : Nat
  seed : Nat
deriving DecidableEq, Repr

/-- One observable side effect of a request handler, in execution order:
`connect m` is `await client(m)`; `download u d t` is `downloadImage(u, d)`
with axios timeout `t` (in ms, `none` when the variant sets no timeout);
`writeFile p` is `fs.writeFileSync(p, ...)`; `resize i out w h` is
`resizeImage(i, out, w, h)` (`i = none` when the input path is undefined);
`resizeToBuffer p w h` is `sharp(p).resize(w, h).toBuffer()`;
`readFile p` is `readLocalFile(p)`; `predict m route payload` is
`appClient.predict(route, payload)` against model `m`; `fetchResult u` is the
secondary `axios.get(u, {responseType: "arraybuffer"})` on the result URL;
`hfInference m` is a Hugging Face inference call against model `m`. -/
inductive Effect where
  | connect (model : String)
  | download (url : String) (dest : String) (timeoutMs : Option Nat)
  | writeFile (path : String)
  | resize (input : Option String) (output : String) (w h : Nat)
  | resizeToBuffer (input : String) (w h : Nat)
  | readFile (path : String)
  | predict (model : String) (route : String) (payload : Payload)
  | fetchResult (url : String)
  | hfInference (model : String)
deriving DecidableEq, Repr

/-- JSON response bodies the service produces. `errorMsg m` is the object with
an `error` field holding `m`; `resultData u` is the `/tryon` success body whose
`result` field holds the raw prediction data (first element's url being `u`);
`resultBase64 b` is the `/tryon/base64` success body whose `result` field holds
the base64 encoding of bytes `b`; `inferenceResult` is the relayed Hugging Face
classification/segmentation result. -/
inductive JsonBody where
  | errorMsg (msg : String)
  | resultData (resultUrl : String)
  | resultBase64 (b : Bytes)
  | inferenceResult
deriving DecidableEq, Repr

/-- An HTTP response: a JSON body with a status, raw media bytes with a status
and Content-Type header, or a plain text body with a status. -/
inductive Response where
  | json (status : Nat) (body : JsonBody)
  | media (status : Nat) (contentType : String) (data : Bytes)
  | text (status : Nat) (body : String)
deriving DecidableEq, Repr

/-- The request-handler catch block: `res.status(500).json({error: m})`. -/
def err500 (m : String) : Response := Response.json 500 (JsonBody.errorMsg m)

/-- A try-on request body/files, as the handlers read it.  Each field is
`none` when the corresponding key is absent (`undefined` in JS); an uploaded
file is represented by its multer temporary path. -/
structure Request where
  type : Option String := none
  humanImageFile : Option String := none
  garmentImageFile : Option String := none
  humanImageURL : Option String := none
  garmentImageURL : Option String := none
  humanImageBase64 : Option String := none
  garmentImageBase64 : Option String := none
  garmentDescription : Option String := none
deriving DecidableEq, Repr

/-- JS truthiness of a possibly-absent string field: absent (`undefined`) and
the empty string are falsy, every other string is truthy. -/
def truthy : Option String → Bool
  | none => false
  | some s => !(s = "")

/-- `value || default` on a possibly-absent string: absent or empty (falsy)
selects the default. Embeds `req.body.garmentDescription || "..."`. -/
def orDefault (v : Option String) (d : String) : String :=
  match v with
  | none => d
  | some s => if s = "" then d else s

/-- Environment oracle fixing the outcome of each kind of fallible awaited
step: `none` means the step succeeds, `some m` means it throws with message
`m`.  `downloadErr` is per source URL.  `resultUrl` is `result.data[0].url`
of a successful prediction. -/
structure Oracle where
  connectErr : Option String
  downloadErr : String → Option String
  writeErr : Option String
  resizeErr : Option String
  readErr : Option String
  predictErr : Option String
  fetchErr : Option String
  resultUrl : String

/-- Runs a handler script inside the try block: each entry is an effect to
attempt paired with its outcome.  Effects are recorded in order; the first
failing step aborts the script and produces the catch block's 500 JSON error;
if every step succeeds the given success response is sent. -/
def runScript : List (Effect × Option String) → Response → List Effect × Response
  | [], ok => ([], ok)
  | (e, none) :: rest, ok =>
    let res := runScript rest ok
    (e :: res.1, res.2)
  | (e, some m) :: _, _ => ([e], err500 m)

/-- A single quote character, used in the invalid-type error message. -/
def squote : String := String.singleton (Char.ofNat 39)

/-- The exact message of the `Error` thrown by `getModelUrlByType` on an
unrecognized `type`. -/
def invalidTypeMsg : String :=
  "Invalid type parameter. Allowed values are " ++ squote ++ "up" ++ squote ++ ", " ++
    squote ++ "down" ++ squote ++ ", or " ++ squote ++ "dress" ++ squote ++ "."

/-- `getModelUrlByType` from the main service: maps the category token to the
remote model identifier and throws on anything else (including an absent
`type`, which reaches the default switch arm). -/
def getModelUrlByType (t : Option String) : Except String String :=
  match t with
  | some s =>
    if s = "up" then Except.ok "alexff91/FitMirrorUp"
    else if s = "down" then Except.ok "alexff91/FitMirror-Down"
    else if s = "dress" then Except.ok "alexff91/FitMirror-Dress"
    else Except.error invalidTypeMsg
  | none => Except.error invalidTypeMsg

/-- The axios request configuration used by a variant's `downloadImage`. -/
structure AxiosRequestConfig where
  responseType : String
  timeoutMs : Option Nat
deriving DecidableEq, Repr

/-- `downloadImage` in `src/app.mjs`: streaming response with a 60 s timeout. -/
def app_downloadImageConfig : AxiosRequestConfig :=
  { responseType := "stream", timeoutMs := some 60000 }

/-- `downloadImage` in the main (rate-limited) service of
`src/unnamed/part_000`: streaming response with a 60 s timeout. -/
def service_downloadImageConfig : AxiosRequestConfig :=
  { responseType := "stream", timeoutMs := some 60000 }

/-- `downloadImage` in the simpler duplicate service of
`src/unnamed/part_000` (second document): streaming response, no timeout. -/
def simple_downloadImageConfig : AxiosRequestConfig :=
  { responseType := "stream", timeoutMs := none }

/-- The default garment description string shared by every handler. -/
def defaultDescription : String := "cloth fitting the person shape"

def tryonRoute : String := "/tryon"

def humanDownloadPath : String := "uploads/humanImage.jpg"
def garmentDownloadPath : String := "uploads/garmentImage.jpg"
def humanResizedPath : String := "uploads/humanImage_resized.jpg"
def garmentResizedPath : String := "uploads/garmentImage_resized.jpg"
def humanFromBase64Path : String := "uploads/humanImage_from_base64.jpg"
def garmentFromBase64Path : String := "uploads/garmentImage_from_base64.jpg"
def humanFromUrlPath : String := "uploads/humanImage_from_url.jpg"
def garmentFromUrlPath : String := "uploads/garmentImage_from_url.jpg"

/-- Result of the image-source selection at the top of a multipart handler. -/
structure Acquired where
  path : Option String
  bytes : Bytes
  script : List (Effect × Option String)

/-- The `if (req.files && req.files.X) ... else if (req.body.XURL) ...`
source-selection block of the multipart handlers: an uploaded file wins, else
a truthy URL is downloaded to `dest`, else the path stays undefined. -/
def acquireImage (file url : Option String) (dest : String) (tmo : Option Nat)
    (o : Oracle) : Acquired :=
  match file with
  | some p => { path := some p, bytes := Bytes.file p, script := [] }
  | none =>
    match url with
    | some u =>
      if u = "" then { path := none, bytes := Bytes.missing, script := [] }
      else
        { path := some dest, bytes := Bytes.fetched u
          script := [(Effect.download u dest tmo, o.downloadErr u)] }
    | none => { path := none, bytes := Bytes.missing, script := [] }

/-- `sharp` cannot produce an output file when the input path is undefined
(the slot had no file, URL, or base64 source); the resize step is modelled as
failing with this message, which the catch block turns into a 500. -/
def missingInputMsg : String := "Input file is missing"

/-- A `resizeImage(input, output, 400, 600)` script entry of a try-on
handler; fails when the input path is undefined, else per the oracle. -/
def resizeEntry (input : Option String) (output : String) (o : Oracle) :
    Effect × Option String :=
  (Effect.resize input output 400 600,
    match input with
    | none => some missingInputMsg
    | some _ => o.resizeErr)

/-- The `predict` payload of every try-on handler:
`[{background, layers: [], composite: null}, garment, description, true, true,
30, 42]` with the two image buffers resized to 400×600. -/
def tryonPayload (humanBytes garmentBytes : Bytes) (desc : String) : Payload :=
  { background := Bytes.resizedOf humanBytes 400 600
    layers := []
    composite := none
    garment := Bytes.resizedOf garmentBytes 400 600
    description := desc
    autoMask := true
    autoCrop := true
    denoisingSteps := 30
    seed := 42 }

/-- The shared body of the multipart try-on handlers (`/tryon` in both
services, `/tryon/media`, and the simpler duplicate's `/tryon`): connect to
the model, select each image source, resize both images to the fixed
`*_resized.jpg` paths at 400×600, read them back, and predict; `tail` holds
the endpoint-specific result-relay steps. -/
def multipartTryonScript (modelUrl : String) (tmo : Option Nat) (r : Request)
    (o : Oracle) (tail : List (Effect × Option String)) :
    List (Effect × Option String) :=
  let hAcq := acquireImage r.humanImageFile r.humanImageURL humanDownloadPath tmo o
  let gAcq := acquireImage r.garmentImageFile r.garmentImageURL garmentDownloadPath tmo o
  (Effect.connect modelUrl, o.connectErr) :: hAcq.script ++ gAcq.script ++
    [resizeEntry hAcq.path humanResizedPath o,
     resizeEntry gAcq.path garmentResizedPath o,
     (Effect.readFile humanResizedPath, o.readErr),
     (Effect.readFile garmentResizedPath, o.readErr),
     (Effect.predict modelUrl tryonRoute
        (tryonPayload hAcq.bytes gAcq.bytes
          (orDefault r.garmentDescription defaultDescription)), o.predictErr)] ++
    tail

/-- `POST /tryon` of `src/app.mjs`: fixed model "alexff91/FitMirror", no
`type` parameter, success response `res.json({result: result.data})`. -/
def app_tryon (r : Request) (o : Oracle) : List Effect × Response :=
  runScript
    (multipartTryonScript "alexff91/FitMirror" app_downloadImageConfig.timeoutMs r o [])
    (Response.json 200 (JsonBody.resultData o.resultUrl))

/-- `POST /tryon` of the simpler duplicate service (second document of
`src/unnamed/part_000`): identical pipeline, but its `downloadImage` sets no
axios timeout. -/
def simple_tryon (r : Request) (o : Oracle) : List Effect × Response :=
  runScript
    (multipartTryonScript "alexff91/FitMirror" simple_downloadImageConfig.timeoutMs r o [])
    (Response.json 200 (JsonBody.resultData o.resultUrl))

/-- `POST /tryon` of the main service: resolves the model by `type` (throwing
inside the try block before any other work on an invalid type), then runs the
multipart pipeline; success response `res.json({result: result.data})`. -/
def service_tryon (r : Request) (o : Oracle) : List Effect × Response :=
  match getModelUrlByType r.type with
  | Except.error m => ([], err500 m)
  | Except.ok modelUrl =>
    runScript
      (multipartTryonScript modelUrl service_downloadImageConfig.timeoutMs r o [])
      (Response.json 200 (JsonBody.resultData o.resultUrl))

/-- `POST /tryon/media` of the main service: multipart pipeline plus a
secondary fetch of `result.data[0].url`, relayed as raw bytes with
`Content-Type: image/png`. -/
def service_tryonMedia (r : Request) (o : Oracle) : List Effect × Response :=
  match getModelUrlByType r.type with
  | Except.error m => ([], err500 m)
  | Except.ok modelUrl =>
    runScript
      (multipartTryonScript modelUrl service_downloadImageConfig.timeoutMs r o
        [(Effect.fetchResult o.resultUrl, o.fetchErr)])
      (Response.media 200 "image/png" (Bytes.fetched o.resultUrl))

def bothBase64RequiredMsg : String :=
  "Both humanImageBase64 and garmentImageBase64 are required."

/-- The try-block body of `POST /tryon/base64` after the input check: write
both decoded buffers to the fixed `*_from_base64.jpg` files, resize both to
the fixed `*_resized.jpg` paths at 400×600, read them back, predict, and
fetch the result URL.  The description uses the destructuring default
`garmentDescription = "..."`, which applies only when the field is absent. -/
def base64TryonScript (modelUrl : String) (r : Request) (o : Oracle) :
    List (Effect × Option String) :=
  [(Effect.writeFile humanFromBase64Path, o.writeErr),
   (Effect.writeFile garmentFromBase64Path, o.writeErr),
   resizeEntry (some humanFromBase64Path) humanResizedPath o,
   resizeEntry (some garmentFromBase64Path) garmentResizedPath o,
   (Effect.readFile humanResizedPath, o.readErr),
   (Effect.readFile garmentResizedPath, o.readErr),
   (Effect.predict modelUrl tryonRoute
      (tryonPayload (Bytes.b64decode (r.humanImageBase64.getD ""))
        (Bytes.b64decode (r.garmentImageBase64.getD ""))
        (r.garmentDescription.getD defaultDescription)), o.predictErr),
   (Effect.fetchResult o.resultUrl, o.fetchErr)]

/-- `POST /tryon/base64` of the main service: resolve the model by `type`,
connect, return 400 if either base64 field is falsy, else run the base64
pipeline; success response `res.json({result: <base64 of fetched bytes>})`. -/
def service_tryonBase64 (r : Request) (o : Oracle) : List Effect × Response :=
  match getModelUrlByType r.type with
  | Except.error m => ([], err500 m)
  | Except.ok modelUrl =>
    match o.connectErr with
    | some m => ([Effect.connect modelUrl], err500 m)
    | none =>
      if truthy r.humanImageBase64 && truthy r.garmentImageBase64 then
        let res := runScript (base64TryonScript modelUrl r o)
          (Response.json 200 (JsonBody.resultBase64 (Bytes.fetched o.resultUrl)))
        (Effect.connect modelUrl :: res.1, res.2)
      else
        ([Effect.connect modelUrl],
          Response.json 400 (JsonBody.errorMsg bothBase64RequiredMsg))

def bothUrlsRequiredMsg : String :=
  "Both humanImageURL and garmentImageURL are required."

/-- The try-block body of `POST /tryon/url` after the input check: download
both URLs to the fixed `*_from_url.jpg` files, resize both to the fixed
`*_resized.jpg` paths at 400×600, read them back, predict, and fetch the
result URL.  The description uses the destructuring default. -/
def urlTryonScript (modelUrl : String) (r : Request) (o : Oracle) :
    List (Effect × Option String) :=
  let hu := r.humanImageURL.getD ""
  let gu := r.garmentImageURL.getD ""
  [(Effect.download hu humanFromUrlPath service_downloadImageConfig.timeoutMs,
      o.downloadErr hu),
   (Effect.download gu garmentFromUrlPath service_downloadImageConfig.timeoutMs,
      o.downloadErr gu),
   resizeEntry (some humanFromUrlPath) humanResizedPath o,
   resizeEntry (some garmentFromUrlPath) garmentResizedPath o,
   (Effect.readFile humanResizedPath, o.readErr),
   (Effect.readFile garmentResizedPath, o.readErr),
   (Effect.predict modelUrl tryonRoute
      (tryonPayload (Bytes.fetched hu) (Bytes.fetched gu)
        (r.garmentDescription.getD defaultDescription)), o.predictErr),
   (Effect.fetchResult o.resultUrl, o.fetchErr)]

/-- `POST /tryon/url` of the main service: resolve the model by `type`,
connect, return 400 if either URL field is falsy, else run the URL pipeline;
success response is raw bytes with `Content-Type: image/png`. -/
def service_tryonUrl (r : Request) (o : Oracle) : List Effect × Response :=
  match getModelUrlByType r.type with
  | Except.error m => ([], err500 m)
  | Except.ok modelUrl =>
    match o.connectErr with
    | some m => ([Effect.connect modelUrl], err500 m)
    | none =>
      if truthy r.humanImageURL && truthy r.garmentImageURL then
        let res := runScript (urlTryonScript modelUrl r o)
          (Response.media 200 "image/png" (Bytes.fetched o.resultUrl))
        (Effect.connect modelUrl :: res.1, res.2)
      else
        ([Effect.connect modelUrl],
          Response.json 400 (JsonBody.errorMsg bothUrlsRequiredMsg))

/-- `POST /check-wardrobe` of the main service: 400 when no file is uploaded,
else resize to 224×224 in memory and call the Hugging Face classification
model, relaying its result as JSON. -/
def service_checkWardrobe (file : Option String) (o : Oracle) :
    List Effect × Response :=
  match file with
  | none => ([], Response.json 400 (JsonBody.errorMsg "Garment image is required."))
  | some p =>
    runScript
      [(Effect.resizeToBuffer p 224 224, o.resizeErr),
       (Effect.hfInference "microsoft/beit-base-patch16-224-pt22k-ft22k", o.predictErr)]
      (Response.json 200 JsonBody.inferenceResult)

/-- `POST /check-person` of the main service: 400 when no file is uploaded,
else resize to 512×512 in memory and call the Hugging Face segmentation
model, relaying its result as JSON. -/
def service_checkPerson (file : Option String) (o : Oracle) :
    List Effect × Response :=
  match file with
  | none => ([], Response.json 400 (JsonBody.errorMsg "Image is required."))
  | some p =>
    runScript
      [(Effect.resizeToBuffer p 512 512, o.resizeErr),
       (Effect.hfInference "nvidia/segformer-b0-finetuned-ade-512-512", o.predictErr)]
      (Response.json 200 JsonBody.inferenceResult)

/-! ## Generic lemmas about the script runner and image acquisition -/

/-- Every effect recorded in a run is an effect of the script. -/
theorem runScript_mem (s : List (Effect × Option String)) (ok : Response) :
    ∀ e ∈ (runScript s ok).1, e ∈ s.map Prod.fst := by
  induction s with
  | nil => intro e he; simp [runScript] at he
  | cons hd tl ih =>
    intro e he
    obtain ⟨e0, err⟩ := hd
    cases err with
    | none =>
      simp only [runScript, List.mem_cons] at he
      rcases he with h | h
      · simp [h]
      · simp [ih e h]
    | some m =>
      simp only [runScript, List.mem_singleton] at he
      simp [he]

/-- A run records no more occurrences of any effect kind than the script holds. -/
theorem runScript_countP (s : List (Effect × Option String)) (ok : Response)
    (p : Effect → Bool) :
    (runScript s ok).1.countP p ≤ (s.map Prod.fst).countP p := by
  induction s with
  | nil => simp [runScript]
  | cons hd tl ih =>
    obtain ⟨e0, err⟩ := hd
    cases err with
    | none =>
      cases hp : p e0 <;> simp_all [runScript, List.countP_cons]
    | some m =>
      cases hp : p e0 <;> simp_all [runScript, List.countP_cons]

/-- The source-selection block at most downloads to the given destination. -/
theorem acquireImage_effects (f u : Option String) (d : String) (tmo : Option Nat)
    (o : Oracle) :
    ∀ e ∈ (acquireImage f u d tmo o).script.map Prod.fst,
      ∃ url, e = Effect.download url d tmo := by
  intro e he
  cases f with
  | some p => simp [acquireImage] at he
  | none =>
    cases u with
    | none => simp [acquireImage] at he
    | some s =>
      by_cases hs : s = ""
      · simp [acquireImage, hs] at he
      · simp [acquireImage, hs] at he
        exact ⟨s, he⟩

/-- Whether an effect is a remote prediction call. -/
def isPredict : Effect → Bool
  | Effect.predict _ _ _ => true
  | _ => false

/-- The source-selection block performs no prediction call. -/
theorem acquireImage_predict_count (f u : Option String) (d : String)
    (tmo : Option Nat) (o : Oracle) :
    ((acquireImage f u d tmo o).script.map Prod.fst).countP isPredict = 0 := by
  rw [List.countP_eq_zero]
  intro e he
  obtain ⟨url, rfl⟩ := acquireImage_effects f u d tmo o e he
  simp [isPredict]

/-- Exhaustive description of the effects a multipart try-on script can
attempt: the client connection, a download per URL-sourced slot, the two
fixed 400×600 resizes, the two reads, the single prediction with the fixed
payload, and the endpoint-specific tail. -/
theorem multipartTryonScript_effects (mu : String) (tmo : Option Nat)
    (r : Request) (o : Oracle) (tail : List (Effect × Option String)) :
    ∀ e ∈ (multipartTryonScript mu tmo r o tail).map Prod.fst,
      e = Effect.connect mu ∨
      (∃ url, e = Effect.download url humanDownloadPath tmo) ∨
      (∃ url, e = Effect.download url garmentDownloadPath tmo) ∨
      e = Effect.resize (acquireImage r.humanImageFile r.humanImageURL
            humanDownloadPath tmo o).path humanResizedPath 400 600 ∨
      e = Effect.resize (acquireImage r.garmentImageFile r.garmentImageURL
            garmentDownloadPath tmo o).path garmentResizedPath 400 600 ∨
      e = Effect.readFile humanResizedPath ∨
      e = Effect.readFile garmentResizedPath ∨
      e = Effect.predict mu tryonRoute
            (tryonPayload
              (acquireImage r.humanImageFile r.humanImageURL humanDownloadPath tmo o).bytes
              (acquireImage r.garmentImageFile r.garmentImageURL garmentDownloadPath tmo o).bytes
              (orDefault r.garmentDescription defaultDescription)) ∨
      e ∈ tail.map Prod.fst := by
  intro e he
  simp only [multipartTryonScript, resizeEntry, List.map_append, List.map_cons,
    List.map_nil, List.mem_cons, List.mem_append, List.not_mem_nil, or_false] at he
  rcases he with (((h | h) | h) | h | h | h | h | h) | h
  · exact Or.inl h
  · exact Or.inr (Or.inl (acquireImage_effects _ _ _ _ _ e h))
  · exact Or.inr (Or.inr (Or.inl (acquireImage_effects _ _ _ _ _ e h)))
  · exact Or.inr (Or.inr (Or.inr (Or.inl h)))
  · exact Or.inr (Or.inr (Or.inr (Or.inr (Or.inl h))))
  · exact Or.inr (Or.inr (Or.inr (Or.inr (Or.inr (Or.inl h)))))
  · exact Or.inr (Or.inr (Or.inr (Or.inr (Or.inr (Or.inr (Or.inl h))))))
  · exact Or.inr (Or.inr (Or.inr (Or.inr (Or.inr (Or.inr (Or.inr (Or.inl h)))))))
  · exact Or.inr (Or.inr (Or.inr (Or.inr (Or.inr (Or.inr (Or.inr (Or.inr h)))))))

/-- A multipart try-on script holds exactly one prediction entry, provided
its endpoint-specific tail holds none. -/
theorem multipartTryonScript_predict_count (mu : String) (tmo : Option Nat)
    (r : Request) (o : Oracle) (tail : List (Effect × Option String))
    (htail : (tail.map Prod.fst).countP isPredict = 0) :
    ((multipartTryonScript mu tmo r o tail).map Prod.fst).countP isPredict = 1 := by
  have h1 : List.countP (isPredict ∘ Prod.fst)
      (acquireImage r.humanImageFile r.humanImageURL humanDownloadPath tmo o).script = 0 := by
    rw [← List.countP_map]; exact acquireImage_predict_count _ _ _ _ _
  have h2 : List.countP (isPredict ∘ Prod.fst)
      (acquireImage r.garmentImageFile r.garmentImageURL garmentDownloadPath tmo o).script = 0 := by
    rw [← List.countP_map]; exact acquireImage_predict_count _ _ _ _ _
  have h3 : List.countP (isPredict ∘ Prod.fst) tail = 0 := by
    rw [← List.countP_map]; exact htail
  simp [multipartTryonScript, resizeEntry, List.countP_append, List.countP_cons,
    h1, h2, h3, isPredict]

/-- If a prefix of the script executes entirely without error, the run is the
prefix's effects followed by the run of the remainder. -/
theorem runScript_append_ok (s1 s2 : List (Effect × Option String)) (ok : Response)
    (h : ∀ x ∈ s1, x.2 = none) :
    runScript (s1 ++ s2) ok =
      (s1.map Prod.fst ++ (runScript s2 ok).1, (runScript s2 ok).2) := by
  induction s1 with
  | nil => simp
  | cons hd tl ih =>
    obtain ⟨e0, err⟩ := hd
    have h0 : err = none := h (e0, err) (by simp)
    subst h0
    have htl := ih (fun x hx => h x (by simp [hx]))
    simp [runScript, htl]

/-- If an effect that appears only after a given prefix of the script was
recorded, every step of that prefix succeeded, the effect's own step ran, and
the run continues with the rest of the script. -/
theorem runScript_reach (s1 : List (Effect × Option String)) (e0 : Effect)
    (s2 : List (Effect × Option String)) (ok : Response)
    (hne : ∀ x ∈ s1, x.1 ≠ e0)
    (hmem : e0 ∈ (runScript (s1 ++ (e0, none) :: s2) ok).1) :
    runScript (s1 ++ (e0, none) :: s2) ok =
      (s1.map Prod.fst ++ e0 :: (runScript s2 ok).1, (runScript s2 ok).2) := by
  induction s1 with
  | nil => simp [runScript]
  | cons hd tl ih =>
    obtain ⟨e1, err⟩ := hd
    cases err with
    | none =>
      have hstep : e0 ∈ (runScript (tl ++ (e0, none) :: s2) ok).1 := by
        simp only [List.cons_append, runScript, List.mem_cons] at hmem
        rcases hmem with h | h
        · exact absurd h.symm (hne (e1, none) (by simp))
        · exact h
      have := ih (fun x hx => hne x (by simp [hx])) hstep
      simp [runScript, this]
    | some m =>
      simp only [List.cons_append, runScript, List.mem_singleton] at hmem
      exact absurd hmem.symm (hne (e1, some m) (by simp))

/-- Every effect of a `/tryon/base64` run is the client connection or an
effect of its pipeline script (for the model resolved from the request). -/
theorem service_tryonBase64_mem (r : Request) (o : Oracle) :
    ∀ e ∈ (service_tryonBase64 r o).1,
      ∃ mu, getModelUrlByType r.type = Except.ok mu ∧
        (e = Effect.connect mu ∨ e ∈ (base64TryonScript mu r o).map Prod.fst) := by
  intro e he
  unfold service_tryonBase64 at he
  cases hm : getModelUrlByType r.type with
  | error m => rw [hm] at he; simp at he
  | ok mu =>
    rw [hm] at he
    refine ⟨mu, rfl, ?_⟩
    cases hc : o.connectErr with
    | some m => rw [hc] at he; simp at he; exact Or.inl he
    | none =>
      by_cases ht : (truthy r.humanImageBase64 && truthy r.garmentImageBase64) = true
      · simp [hc, ht] at he
        rcases he with h | h
        · exact Or.inl h
        · exact Or.inr (runScript_mem _ _ e h)
      · simp [hc, ht] at he
        exact Or.inl he

/-- Every effect of a `/tryon/url` run is the client connection or an effect
of its pipeline script (for the model resolved from the request). -/
theorem service_tryonUrl_mem (r : Request) (o : Oracle) :
    ∀ e ∈ (service_tryonUrl r o).1,
      ∃ mu, getModelUrlByType r.type = Except.ok mu ∧
        (e = Effect.connect mu ∨ e ∈ (urlTryonScript mu r o).map Prod.fst) := by
  intro e he
  unfold service_tryonUrl at he
  cases hm : getModelUrlByType r.type with
  | error m => rw [hm] at he; simp at he
  | ok mu =>
    rw [hm] at he
    refine ⟨mu, rfl, ?_⟩
    cases hc : o.connectErr with
    | some m => rw [hc] at he; simp at he; exact Or.inl he
    | none =>
      by_cases ht : (truthy r.humanImageURL && truthy r.garmentImageURL) = true
      · simp [hc, ht] at he
        rcases he with h | h
        · exact Or.inl h
        · exact Or.inr (runScript_mem _ _ e h)
      · simp [hc, ht] at he
        exact Or.inl he

/-- Every effect of a main-service `/tryon` run is an effect of the multipart
script for the model resolved from the request. -/
theorem service_tryon_mem (r : Request) (o : Oracle) :
    ∀ e ∈ (service_tryon r o).1,
      ∃ mu, getModelUrlByType r.type = Except.ok mu ∧
        e ∈ (multipartTryonScript mu service_downloadImageConfig.timeoutMs r o []).map
          Prod.fst := by
  intro e he
  unfold service_tryon at he
  cases hm : getModelUrlByType r.type with
  | error m => rw [hm] at he; simp at he
  | ok mu =>
    rw [hm] at he
    exact ⟨mu, rfl, runScript_mem _ _ e he⟩

/-- Every effect of a `/tryon/media` run is an effect of the multipart script
(with the result-fetch tail) for the model resolved from the request. -/
theorem service_tryonMedia_mem (r : Request) (o : Oracle) :
    ∀ e ∈ (service_tryonMedia r o).1,
      ∃ mu, getModelUrlByType r.type = Except.ok mu ∧
        e ∈ (multipartTryonScript mu service_downloadImageConfig.timeoutMs r o
          [(Effect.fetchResult o.resultUrl, o.fetchErr)]).map Prod.fst := by
  intro e he
  unfold service_tryonMedia at he
  cases hm : getModelUrlByType r.type with
  | error m => rw [hm] at he; simp at he
  | ok mu =>
    rw [hm] at he
    exact ⟨mu, rfl, runScript_mem _ _ e he⟩

/-- Any prediction in a multipart try-on script targets the resolved model on
the `/tryon` route with the fixed payload built by `tryonPayload`. -/
theorem multipart_predict_shape (mu : String) (tmo : Option Nat) (r : Request)
    (o : Oracle) (tail : List (Effect × Option String)) (m rt : String) (p : Payload)
    (htail : ∀ x ∈ tail, ∀ m2 rt2 p2, x.1 ≠ Effect.predict m2 rt2 p2)
    (h : Effect.predict m rt p ∈ (multipartTryonScript mu tmo r o tail).map Prod.fst) :
    m = mu ∧ rt = tryonRoute ∧
      p = tryonPayload
            (acquireImage r.humanImageFile r.humanImageURL humanDownloadPath tmo o).bytes
            (acquireImage r.garmentImageFile r.garmentImageURL garmentDownloadPath tmo o).bytes
            (orDefault r.garmentDescription defaultDescription) := by
  rcases multipartTryonScript_effects mu tmo r o tail _ h with
    h1 | ⟨u, h1⟩ | ⟨u, h1⟩ | h1 | h1 | h1 | h1 | h1 | h1
  · exact absurd h1 (by simp)
  · exact absurd h1 (by simp)
  · exact absurd h1 (by simp)
  · exact absurd h1 (by simp)
  · exact absurd h1 (by simp)
  · exact absurd h1 (by simp)
  · exact absurd h1 (by simp)
  · simp only [Effect.predict.injEq] at h1
    exact ⟨h1.1, h1.2.1, h1.2.2⟩
  · rcases List.mem_map.mp h1 with ⟨x, hx, hfx⟩
    exact absurd hfx (htail x hx m rt p)

/-- Any prediction in the `/tryon/base64` pipeline script targets the
resolved model on `/tryon` with the fixed payload. -/
theorem base64Script_predict_shape (mu : String) (r : Request) (o : Oracle)
    (m rt : String) (p : Payload)
    (h : Effect.predict m rt p ∈ (base64TryonScript mu r o).map Prod.fst) :
    m = mu ∧ rt = tryonRoute ∧
      p = tryonPayload (Bytes.b64decode (r.humanImageBase64.getD ""))
            (Bytes.b64decode (r.garmentImageBase64.getD ""))
            (r.garmentDescription.getD defaultDescription) := by
  simp [base64TryonScript, resizeEntry] at h
  exact h

/-- Any prediction in the `/tryon/url` pipeline script targets the resolved
model on `/tryon` with the fixed payload. -/
theorem urlScript_predict_shape (mu : String) (r : Request) (o : Oracle)
    (m rt : String) (p : Payload)
    (h : Effect.predict m rt p ∈ (urlTryonScript mu r o).map Prod.fst) :
    m = mu ∧ rt = tryonRoute ∧
      p = tryonPayload (Bytes.fetched (r.humanImageURL.getD ""))
            (Bytes.fetched (r.garmentImageURL.getD ""))
            (r.garmentDescription.getD defaultDescription) := by
  simp [urlTryonScript, resizeEntry] at h
  exact h

/-- The fixed fields of every `tryonPayload`: empty layer list, no composite,
auto-mask and auto-crop on, 30 denoising steps, seed 42. -/
theorem payload_shape_props (m rt : String) (p : Payload) (mu : String)
    (hb gb : Bytes) (ds : String)
    (h : m = mu ∧ rt = tryonRoute ∧ p = tryonPayload hb gb ds) :
    rt = tryonRoute ∧ p.layers = [] ∧ p.composite = none ∧ p.autoMask = true ∧
    p.autoCrop = true ∧ p.denoisingSteps = 30 ∧ p.seed = 42 := by
  obtain ⟨_, h2, h3⟩ := h
  subst h3
  simp [tryonPayload, h2]

/-- A run of a multipart pipeline records at most one prediction, provided
the endpoint-specific tail holds none. -/
theorem multipart_run_predict_count (mu : String) (tmo : Option Nat) (r : Request)
    (o : Oracle) (tail : List (Effect × Option String)) (ok : Response)
    (htail : (tail.map Prod.fst).countP isPredict = 0) :
    (runScript (multipartTryonScript mu tmo r o tail) ok).1.countP isPredict ≤ 1 := by
  have h := runScript_countP (multipartTryonScript mu tmo r o tail) ok isPredict
  rw [multipartTryonScript_predict_count mu tmo r o tail htail] at h
  exact h

/-- `/tryon/base64` issues at most one prediction per request. -/
theorem service_tryonBase64_predict_count (r : Request) (o : Oracle) :
    (service_tryonBase64 r o).1.countP isPredict ≤ 1 := by
  cases hm : getModelUrlByType r.type with
  | error m => simp [service_tryonBase64, hm]
  | ok mu =>
    cases hc : o.connectErr with
    | some m => simp [service_tryonBase64, hm, hc, List.countP_cons, isPredict]
    | none =>
      by_cases ht : (truthy r.humanImageBase64 && truthy r.garmentImageBase64) = true
      · have hs : ((base64TryonScript mu r o).map Prod.fst).countP isPredict = 1 := by
          simp [base64TryonScript, resizeEntry, List.countP_cons, isPredict]
        have hr := runScript_countP (base64TryonScript mu r o)
          (Response.json 200 (JsonBody.resultBase64 (Bytes.fetched o.resultUrl))) isPredict
        rw [hs] at hr
        simp [service_tryonBase64, hm, hc, ht, List.countP_cons, isPredict]
        omega
      · simp [service_tryonBase64, hm, hc, ht, List.countP_cons, isPredict]

/-- `/tryon/url` issues at most one prediction per request. -/
theorem service_tryonUrl_predict_count (r : Request) (o : Oracle) :
    (service_tryonUrl r o).1.countP isPredict ≤ 1 := by
  cases hm : getModelUrlByType r.type with
  | error m => simp [service_tryonUrl, hm]
  | ok mu =>
    cases hc : o.connectErr with
    | some m => simp [service_tryonUrl, hm, hc, List.countP_cons, isPredict]
    | none =>
      by_cases ht : (truthy r.humanImageURL && truthy r.garmentImageURL) = true
      · have hs : ((urlTryonScript mu r o).map Prod.fst).countP isPredict = 1 := by
          simp [urlTryonScript, resizeEntry, List.countP_cons, isPredict]
        have hr := runScript_countP (urlTryonScript mu r o)
          (Response.media 200 "image/png" (Bytes.fetched o.resultUrl)) isPredict
        rw [hs] at hr
        simp [service_tryonUrl, hm, hc, ht, List.countP_cons, isPredict]
        omega
      · simp [service_tryonUrl, hm, hc, ht, List.countP_cons, isPredict]

/-! ## Concrete inputs shared by witnesses and counterexamples -/

/-- An oracle under which every awaited step succeeds. -/
def oAllOk : Oracle :=
  { connectErr := none
    downloadErr := fun _ => none
    writeErr := none
    resizeErr := none
    readErr := none
    predictErr := none
    fetchErr := none
    resultUrl := "https://remote.example/result0.png" }

/-- A well-formed multipart request with both images uploaded as files. -/
def uploadTryonRequest : Request :=
  { type := some "up"
    humanImageFile := some "uploads/h1"
    garmentImageFile := some "uploads/g1" }

/-- C1: every try-on endpoint issues at most one remote prediction call per
request (in particular a failed call is never retried), and any prediction
issued goes to the `/tryon` route carrying the fixed positional payload:
`[{background, layers: [], composite: null}, garment, description, true
(auto-mask), true (auto-crop), 30 (denoising steps), 42 (seed)]`. -/
theorem c1_single_prediction_fixed_payload :
    ∀ (r : Request) (o : Oracle),
      ((app_tryon r o).1.countP isPredict ≤ 1 ∧
       (service_tryon r o).1.countP isPredict ≤ 1 ∧
       (service_tryonBase64 r o).1.countP isPredict ≤ 1 ∧
       (service_tryonMedia r o).1.countP isPredict ≤ 1 ∧
       (service_tryonUrl r o).1.countP isPredict ≤ 1) ∧
      (∀ m rt p,
        (Effect.predict m rt p ∈ (app_tryon r o).1 ∨
         Effect.predict m rt p ∈ (service_tryon r o).1 ∨
         Effect.predict m rt p ∈ (service_tryonBase64 r o).1 ∨
         Effect.predict m rt p ∈ (service_tryonMedia r o).1 ∨
         Effect.predict m rt p ∈ (service_tryonUrl r o).1) →
        rt = tryonRoute ∧ p.layers = [] ∧ p.composite = none ∧
        p.autoMask = true ∧ p.autoCrop = true ∧ p.denoisingSteps = 30 ∧
        p.seed = 42) := by
  intro r o
  constructor
  · refine ⟨?_, ?_, service_tryonBase64_predict_count r o, ?_,
      service_tryonUrl_predict_count r o⟩
    · exact multipart_run_predict_count _ _ r o [] _ (by simp)
    · cases hm : getModelUrlByType r.type with
      | error m => simp [service_tryon, hm]
      | ok mu =>
        have := multipart_run_predict_count mu service_downloadImageConfig.timeoutMs r o []
          (Response.json 200 (JsonBody.resultData o.resultUrl)) (by simp)
        simp [service_tryon, hm]
        exact this
    · cases hm : getModelUrlByType r.type with
      | error m => simp [service_tryonMedia, hm]
      | ok mu =>
        have := multipart_run_predict_count mu service_downloadImageConfig.timeoutMs r o
          [(Effect.fetchResult o.resultUrl, o.fetchErr)]
          (Response.media 200 "image/png" (Bytes.fetched o.resultUrl))
          (by simp [isPredict])
        simp [service_tryonMedia, hm]
        exact this
  · intro m rt p hmem
    rcases hmem with h | h | h | h | h
    · exact payload_shape_props m rt p _ _ _ _
        (multipart_predict_shape _ _ r o [] m rt p (by simp)
          (runScript_mem _ _ _ h))
    · obtain ⟨mu, _, hs⟩ := service_tryon_mem r o _ h
      exact payload_shape_props m rt p _ _ _ _
        (multipart_predict_shape _ _ r o [] m rt p (by simp) hs)
    · obtain ⟨mu, _, hs⟩ := service_tryonBase64_mem r o _ h
      rcases hs with hc | hs
      · exact absurd hc (by simp)
      · exact payload_shape_props m rt p _ _ _ _
          (base64Script_predict_shape mu r o m rt p hs)
    · obtain ⟨mu, _, hs⟩ := service_tryonMedia_mem r o _ h
      exact payload_shape_props m rt p _ _ _ _
        (multipart_predict_shape _ _ r o _ m rt p (by simp) hs)
    · obtain ⟨mu, _, hs⟩ := service_tryonUrl_mem r o _ h
      rcases hs with hc | hs
      · exact absurd hc (by simp)
      · exact payload_shape_props m rt p _ _ _ _
          (urlScript_predict_shape mu r o m rt p hs)

/-- Witness for C1 at a concrete request: the prediction recorded by the main
service's `/tryon` run carries the fixed flags and constants. -/
theorem c1_witness :
    tryonRoute = tryonRoute ∧
    (tryonPayload (Bytes.file "uploads/h1") (Bytes.file "uploads/g1")
      defaultDescription).layers = [] ∧
    (tryonPayload (Bytes.file "uploads/h1") (Bytes.file "uploads/g1")
      defaultDescription).composite = none ∧
    (tryonPayload (Bytes.file "uploads/h1") (Bytes.file "uploads/g1")
      defaultDescription).autoMask = true ∧
    (tryonPayload (Bytes.file "uploads/h1") (Bytes.file "uploads/g1")
      defaultDescription).autoCrop = true ∧
    (tryonPayload (Bytes.file "uploads/h1") (Bytes.file "uploads/g1")
      defaultDescription).denoisingSteps = 30 ∧
    (tryonPayload (Bytes.file "uploads/h1") (Bytes.file "uploads/g1")
      defaultDescription).seed = 42 :=
  (c1_single_prediction_fixed_payload uploadTryonRequest oAllOk).2
    "alexff91/FitMirrorUp" tryonRoute
    (tryonPayload (Bytes.file "uploads/h1") (Bytes.file "uploads/g1")
      defaultDescription)
    (Or.inr (Or.inl (by decide)))

/-- C2: on every endpoint that supports the `type` parameter (`/tryon`,
`/tryon/base64`, `/tryon/media`, `/tryon/url` of the main service), an absent
or unrecognized `type` makes the handler throw before any image acquisition,
image processing, or remote call (the recorded effect trace is empty), and
the response is HTTP 500 with the JSON body
`{error: "Invalid type parameter. Allowed values are 'up', 'down', or
'dress'."}`. -/
theorem c2_invalid_type_rejected_before_any_work :
    ∀ (r : Request) (o : Oracle),
      (∀ s, r.type = some s → s ≠ "up" ∧ s ≠ "down" ∧ s ≠ "dress") →
      service_tryon r o = ([], err500 invalidTypeMsg) ∧
      service_tryonBase64 r o = ([], err500 invalidTypeMsg) ∧
      service_tryonMedia r o = ([], err500 invalidTypeMsg) ∧
      service_tryonUrl r o = ([], err500 invalidTypeMsg) := by
  intro r o hinv
  have hm : getModelUrlByType r.type = Except.error invalidTypeMsg := by
    cases ht : r.type with
    | none => simp [getModelUrlByType]
    | some s =>
      obtain ⟨h1, h2, h3⟩ := hinv s ht
      simp [getModelUrlByType, h1, h2, h3]
  exact ⟨by simp [service_tryon, hm], by simp [service_tryonBase64, hm],
    by simp [service_tryonMedia, hm], by simp [service_tryonUrl, hm]⟩

/-- A request with an unrecognized category token. -/
def invalidTypeRequest : Request := { type := some "sideways" }

/-- Witness for C2: the concrete request with `type = "sideways"` is rejected
by all four category-aware endpoints with the exact 500 error and no
side effects. -/
theorem c2_witness :
    service_tryon invalidTypeRequest oAllOk = ([], err500 invalidTypeMsg) ∧
    service_tryonBase64 invalidTypeRequest oAllOk = ([], err500 invalidTypeMsg) ∧
    service_tryonMedia invalidTypeRequest oAllOk = ([], err500 invalidTypeMsg) ∧
    service_tryonUrl invalidTypeRequest oAllOk = ([], err500 invalidTypeMsg) :=
  c2_invalid_type_rejected_before_any_work invalidTypeRequest oAllOk
    (fun s hs => by
      simp only [invalidTypeRequest, Option.some.injEq] at hs
      subst hs
      exact ⟨by decide, by decide, by decide⟩)

/-- Any resize in a multipart try-on script has the fixed 400×600 target. -/
theorem multipart_resize_dims (mu : String) (tmo : Option Nat) (r : Request)
    (o : Oracle) (tail : List (Effect × Option String)) (i : Option String)
    (out : String) (wd ht : Nat)
    (htail : ∀ x ∈ tail, ∀ i2 out2 w2 h2, x.1 ≠ Effect.resize i2 out2 w2 h2)
    (h : Effect.resize i out wd ht ∈ (multipartTryonScript mu tmo r o tail).map Prod.fst) :
    wd = 400 ∧ ht = 600 := by
  rcases multipartTryonScript_effects mu tmo r o tail _ h with
    h1 | ⟨u, h1⟩ | ⟨u, h1⟩ | h1 | h1 | h1 | h1 | h1 | h1
  · exact absurd h1 (by simp)
  · exact absurd h1 (by simp)
  · exact absurd h1 (by simp)
  · simp only [Effect.resize.injEq] at h1
    exact ⟨h1.2.2.1, h1.2.2.2⟩
  · simp only [Effect.resize.injEq] at h1
    exact ⟨h1.2.2.1, h1.2.2.2⟩
  · exact absurd h1 (by simp)
  · exact absurd h1 (by simp)
  · exact absurd h1 (by simp)
  · rcases List.mem_map.mp h1 with ⟨x, hx, hfx⟩
    exact absurd hfx (htail x hx i out wd ht)

/-- Any resize in the `/tryon/base64` pipeline script is 400×600. -/
theorem base64Script_resize_dims (mu : String) (r : Request) (o : Oracle)
    (i : Option String) (out : String) (wd ht : Nat)
    (h : Effect.resize i out wd ht ∈ (base64TryonScript mu r o).map Prod.fst) :
    wd = 400 ∧ ht = 600 := by
  simp [base64TryonScript, resizeEntry] at h
  rcases h with ⟨h1, h2, h3, h4⟩ | ⟨h1, h2, h3, h4⟩ <;> exact ⟨by omega, by omega⟩

/-- Any resize in the `/tryon/url` pipeline script is 400×600. -/
theorem urlScript_resize_dims (mu : String) (r : Request) (o : Oracle)
    (i : Option String) (out : String) (wd ht : Nat)
    (h : Effect.resize i out wd ht ∈ (urlTryonScript mu r o).map Prod.fst) :
    wd = 400 ∧ ht = 600 := by
  simp [urlTryonScript, resizeEntry] at h
  rcases h with ⟨h1, h2, h3, h4⟩ | ⟨h1, h2, h3, h4⟩ <;> exact ⟨by omega, by omega⟩

/-- C4: normalization targets are fixed constants per endpoint and not
user-configurable: every resize performed by any try-on handler (whatever the
image source) targets exactly 400×600; the garment-classification endpoint
resizes to exactly 224×224; the person-segmentation endpoint to exactly
512×512. -/
theorem c4_fixed_resolutions :
    ∀ (r : Request) (o : Oracle) (f : Option String),
      (∀ i out wd ht, Effect.resize i out wd ht ∈ (app_tryon r o).1 →
        wd = 400 ∧ ht = 600) ∧
      (∀ i out wd ht, Effect.resize i out wd ht ∈ (simple_tryon r o).1 →
        wd = 400 ∧ ht = 600) ∧
      (∀ i out wd ht, Effect.resize i out wd ht ∈ (service_tryon r o).1 →
        wd = 400 ∧ ht = 600) ∧
      (∀ i out wd ht, Effect.resize i out wd ht ∈ (service_tryonBase64 r o).1 →
        wd = 400 ∧ ht = 600) ∧
      (∀ i out wd ht, Effect.resize i out wd ht ∈ (service_tryonMedia r o).1 →
        wd = 400 ∧ ht = 600) ∧
      (∀ i out wd ht, Effect.resize i out wd ht ∈ (service_tryonUrl r o).1 →
        wd = 400 ∧ ht = 600) ∧
      (∀ q wd ht, Effect.resizeToBuffer q wd ht ∈ (service_checkWardrobe f o).1 →
        wd = 224 ∧ ht = 224) ∧
      (∀ q wd ht, Effect.resizeToBuffer q wd ht ∈ (service_checkPerson f o).1 →
        wd = 512 ∧ ht = 512) := by
  intro r o f
  refine ⟨?_, ?_, ?_, ?_, ?_, ?_, ?_, ?_⟩
  · intro i out wd ht h
    exact multipart_resize_dims _ _ r o [] i out wd ht (by simp)
      (runScript_mem _ _ _ h)
  · intro i out wd ht h
    exact multipart_resize_dims _ _ r o [] i out wd ht (by simp)
      (runScript_mem _ _ _ h)
  · intro i out wd ht h
    obtain ⟨mu, _, hs⟩ := service_tryon_mem r o _ h
    exact multipart_resize_dims _ _ r o [] i out wd ht (by simp) hs
  · intro i out wd ht h
    obtain ⟨mu, _, hs⟩ := service_tryonBase64_mem r o _ h
    rcases hs with hc | hs
    · exact absurd hc (by simp)
    · exact base64Script_resize_dims mu r o i out wd ht hs
  · intro i out wd ht h
    obtain ⟨mu, _, hs⟩ := service_tryonMedia_mem r o _ h
    exact multipart_resize_dims _ _ r o _ i out wd ht (by simp) hs
  · intro i out wd ht h
    obtain ⟨mu, _, hs⟩ := service_tryonUrl_mem r o _ h
    rcases hs with hc | hs
    · exact absurd hc (by simp)
    · exact urlScript_resize_dims mu r o i out wd ht hs
  · intro q wd ht h
    cases hf : f with
    | none => rw [hf] at h; simp [service_checkWardrobe] at h
    | some p =>
      rw [hf] at h
      have := runScript_mem _ _ _ h
      simp [service_checkWardrobe] at this
      obtain ⟨h1, h2, h3⟩ := this
      exact ⟨by omega, by omega⟩
  · intro q wd ht h
    cases hf : f with
    | none => rw [hf] at h; simp [service_checkPerson] at h
    | some p =>
      rw [hf] at h
      have := runScript_mem _ _ _ h
      simp [service_checkPerson] at this
      obtain ⟨h1, h2, h3⟩ := this
      exact ⟨by omega, by omega⟩

/-- Witness for C4: the 400×600 resize recorded by a concrete `/tryon` run
and the 224×224 resize of a concrete `/check-wardrobe` run. -/
theorem c4_witness :
    (400 = 400 ∧ 600 = 600) ∧ (224 = 224 ∧ 224 = 224) :=
  ⟨(c4_fixed_resolutions uploadTryonRequest oAllOk (some "uploads/w1")).2.2.1
      (some "uploads/h1") humanResizedPath 400 600 (by decide),
   (c4_fixed_resolutions uploadTryonRequest oAllOk (some "uploads/w1")).2.2.2.2.2.2.1
      "uploads/w1" 224 224 (by decide)⟩

/-- A try-on request carrying no image source at all. -/
def emptyTryonRequest : Request := {}

/-- Counterexample to C3: a multipart `/tryon` request (app.mjs) with no
uploaded file and no URL for either slot is NOT rejected with a 400-class
error — the handler has no missing-input check, proceeds to the resize step
with an undefined input path, and the request fails as a 500; likewise for
the main service's `/tryon/media` with a valid `type`. -/
theorem c3_counterexample :
    (app_tryon emptyTryonRequest oAllOk).2 = err500 missingInputMsg ∧
    Effect.resize none humanResizedPath 400 600 ∈ (app_tryon emptyTryonRequest oAllOk).1 ∧
    (service_tryonMedia { type := some "up" } oAllOk).2 = err500 missingInputMsg := by
  decide

/-- C3 amended: only `/tryon/base64` and `/tryon/url` validate required image
inputs; on those endpoints a missing (absent or empty) image field yields
HTTP 400 with the explanatory JSON body, before any image write, download,
normalization, or prediction — the only prior effect is the already-made
gradio client connection.  (The multipart endpoints `/tryon` and
`/tryon/media` perform no such check and fail with a 500 during
normalization; see the counterexample.) -/
theorem c3_amended_missing_input_check :
    ∀ (r : Request) (o : Oracle) (mu : String),
      getModelUrlByType r.type = Except.ok mu →
      o.connectErr = none →
      ((truthy r.humanImageBase64 = false ∨ truthy r.garmentImageBase64 = false) →
        service_tryonBase64 r o =
          ([Effect.connect mu],
            Response.json 400 (JsonBody.errorMsg bothBase64RequiredMsg))) ∧
      ((truthy r.humanImageURL = false ∨ truthy r.garmentImageURL = false) →
        service_tryonUrl r o =
          ([Effect.connect mu],
            Response.json 400 (JsonBody.errorMsg bothUrlsRequiredMsg))) := by
  intro r o mu hm hc
  constructor
  · intro hd
    have hcond : (truthy r.humanImageBase64 && truthy r.garmentImageBase64) = false := by
      rcases hd with h | h <;> simp [h]
    simp [service_tryonBase64, hm, hc, hcond]
  · intro hd
    have hcond : (truthy r.humanImageURL && truthy r.garmentImageURL) = false := by
      rcases hd with h | h <;> simp [h]
    simp [service_tryonUrl, hm, hc, hcond]

/-- A `/tryon/base64` request missing the garment image. -/
def missingGarmentBase64Request : Request :=
  { type := some "up", humanImageBase64 := some "aGk=" }

/-- Witness for the amended C3 at a concrete request. -/
theorem c3_witness :
    service_tryonBase64 missingGarmentBase64Request oAllOk =
      ([Effect.connect "alexff91/FitMirrorUp"],
        Response.json 400 (JsonBody.errorMsg bothBase64RequiredMsg)) :=
  (c3_amended_missing_input_check missingGarmentBase64Request oAllOk
      "alexff91/FitMirrorUp" rfl rfl).1 (Or.inr (by decide))

/-- A multipart try-on request supplying both images by URL only. -/
def urlSourcedTryonRequest : Request :=
  { humanImageURL := some "http://images.example/human.jpg"
    garmentImageURL := some "http://images.example/garment.jpg" }

/-- Counterexample to C6: the simpler duplicate service's `downloadImage`
sets no axios timeout, so its `/tryon` fetches an input-image URL with no
60-second bound. -/
theorem c6_counterexample :
    Effect.download "http://images.example/human.jpg" humanDownloadPath none
        ∈ (simple_tryon urlSourcedTryonRequest oAllOk).1 ∧
    simple_downloadImageConfig.timeoutMs ≠ some 60000 := by
  decide

/-- Any download in a multipart try-on script carries the variant's
configured timeout. -/
theorem multipart_download_timeout (mu : String) (tmo : Option Nat) (r : Request)
    (o : Oracle) (tail : List (Effect × Option String)) (u d : String)
    (t : Option Nat)
    (htail : ∀ x ∈ tail, ∀ u2 d2 t2, x.1 ≠ Effect.download u2 d2 t2)
    (h : Effect.download u d t ∈ (multipartTryonScript mu tmo r o tail).map Prod.fst) :
    t = tmo := by
  rcases multipartTryonScript_effects mu tmo r o tail _ h with
    h1 | ⟨url, h1⟩ | ⟨url, h1⟩ | h1 | h1 | h1 | h1 | h1 | h1
  · exact absurd h1 (by simp)
  · simp only [Effect.download.injEq] at h1
    exact h1.2.2
  · simp only [Effect.download.injEq] at h1
    exact h1.2.2
  · exact absurd h1 (by simp)
  · exact absurd h1 (by simp)
  · exact absurd h1 (by simp)
  · exact absurd h1 (by simp)
  · exact absurd h1 (by simp)
  · rcases List.mem_map.mp h1 with ⟨x, hx, hfx⟩
    exact absurd hfx (htail x hx u d t)

/-- C6 amended: every variant fetches an input-image URL by streaming it into
a file sink and a download failure aborts the request (no prediction occurs
and the failure surfaces as the request's error response); `src/app.mjs` and
the main service bound the fetch with a 60 s timeout, but the simpler
duplicate variant sets no timeout on the fetch. -/
theorem c6_amended_download_timeout :
    ∀ (r : Request) (o : Oracle),
      (∀ u d t, Effect.download u d t ∈ (app_tryon r o).1 → t = some 60000) ∧
      (∀ u d t, Effect.download u d t ∈ (service_tryon r o).1 → t = some 60000) ∧
      (∀ u d t, Effect.download u d t ∈ (service_tryonMedia r o).1 → t = some 60000) ∧
      (∀ u d t, Effect.download u d t ∈ (service_tryonUrl r o).1 → t = some 60000) ∧
      (∀ u d t, Effect.download u d t ∈ (simple_tryon r o).1 → t = none) ∧
      (∀ mu m, getModelUrlByType r.type = Except.ok mu → o.connectErr = none →
        truthy r.humanImageURL = true → truthy r.garmentImageURL = true →
        o.downloadErr (r.humanImageURL.getD "") = some m →
        (service_tryonUrl r o).2 = err500 m ∧
        ∀ m2 rt p, Effect.predict m2 rt p ∉ (service_tryonUrl r o).1) := by
  intro r o
  refine ⟨?_, ?_, ?_, ?_, ?_, ?_⟩
  · intro u d t h
    exact multipart_download_timeout _ _ r o [] u d t (by simp)
      (runScript_mem _ _ _ h)
  · intro u d t h
    obtain ⟨mu, _, hs⟩ := service_tryon_mem r o _ h
    exact multipart_download_timeout _ _ r o [] u d t (by simp) hs
  · intro u d t h
    obtain ⟨mu, _, hs⟩ := service_tryonMedia_mem r o _ h
    exact multipart_download_timeout _ _ r o _ u d t (by simp) hs
  · intro u d t h
    obtain ⟨mu, _, hs⟩ := service_tryonUrl_mem r o _ h
    rcases hs with hcn | hs
    · exact absurd hcn (by simp)
    · simp [urlTryonScript, resizeEntry, service_downloadImageConfig] at hs
      rcases hs with ⟨h1, h2, h3⟩ | ⟨h1, h2, h3⟩ <;> exact h3
  · intro u d t h
    exact multipart_download_timeout _ _ r o [] u d t (by simp)
      (runScript_mem _ _ _ h)
  · intro mu m hm hc h1 h2 hd
    constructor
    · simp [service_tryonUrl, hm, hc, h1, h2, urlTryonScript, hd, runScript]
    · intro m2 rt p
      simp [service_tryonUrl, hm, hc, h1, h2, urlTryonScript, hd, runScript]

/-- Witness for the amended C6: the concrete main-service `/tryon/url`
downloads carry the 60 s timeout. -/
theorem c6_witness : (some 60000 : Option Nat) = some 60000 :=
  (c6_amended_download_timeout
      { urlSourcedTryonRequest with type := some "up" } oAllOk).2.2.2.1
    "http://images.example/human.jpg" humanFromUrlPath (some 60000) (by decide)

/-- Description sent by the four multipart-pipeline handlers: the `||`
defaulting of the source. -/
theorem multipart_handlers_description (r : Request) (o : Oracle) (m rt : String)
    (p : Payload)
    (h : Effect.predict m rt p ∈ (app_tryon r o).1 ∨
         Effect.predict m rt p ∈ (simple_tryon r o).1 ∨
         Effect.predict m rt p ∈ (service_tryon r o).1 ∨
         Effect.predict m rt p ∈ (service_tryonMedia r o).1) :
    p.description = orDefault r.garmentDescription defaultDescription := by
  have hp : ∀ (mu : String) (tmo : Option Nat) (tail : List (Effect × Option String)),
      (∀ x ∈ tail, ∀ m2 rt2 p2, x.1 ≠ Effect.predict m2 rt2 p2) →
      Effect.predict m rt p ∈ (multipartTryonScript mu tmo r o tail).map Prod.fst →
      p.description = orDefault r.garmentDescription defaultDescription := by
    intro mu tmo tail htail hmem
    obtain ⟨_, _, h3⟩ := multipart_predict_shape mu tmo r o tail m rt p htail hmem
    subst h3
    simp [tryonPayload]
  rcases h with h | h | h | h
  · exact hp _ _ [] (by simp) (runScript_mem _ _ _ h)
  · exact hp _ _ [] (by simp) (runScript_mem _ _ _ h)
  · obtain ⟨mu, _, hs⟩ := service_tryon_mem r o _ h
    exact hp _ _ [] (by simp) hs
  · obtain ⟨mu, _, hs⟩ := service_tryonMedia_mem r o _ h
    exact hp _ _ _ (by simp) hs

/-- Description sent by `/tryon/base64` and `/tryon/url`: the destructuring
defaulting of the source, which fires only when the field is absent. -/
theorem base64url_handlers_description (r : Request) (o : Oracle) (m rt : String)
    (p : Payload)
    (h : Effect.predict m rt p ∈ (service_tryonBase64 r o).1 ∨
         Effect.predict m rt p ∈ (service_tryonUrl r o).1) :
    p.description = r.garmentDescription.getD defaultDescription := by
  rcases h with h | h
  · obtain ⟨mu, _, hs⟩ := service_tryonBase64_mem r o _ h
    rcases hs with hc | hs
    · exact absurd hc (by simp)
    · obtain ⟨_, _, h3⟩ := base64Script_predict_shape mu r o m rt p hs
      subst h3
      simp [tryonPayload]
  · obtain ⟨mu, _, hs⟩ := service_tryonUrl_mem r o _ h
    rcases hs with hc | hs
    · exact absurd hc (by simp)
    · obtain ⟨_, _, h3⟩ := urlScript_predict_shape mu r o m rt p hs
      subst h3
      simp [tryonPayload]

/-- A `/tryon/base64` request that explicitly supplies an empty garment
description. -/
def emptyDescBase64Request : Request :=
  { type := some "up"
    humanImageBase64 := some "aGVsbG8="
    garmentImageBase64 := some "d29ybGQ="
    garmentDescription := some "" }

/-- Counterexample to C9: on `/tryon/base64` an explicitly empty
`garmentDescription` is sent to the model unchanged (the destructuring
default only fires for an absent field), so the description in the issued
prediction is the empty string, not the default. -/
theorem c9_counterexample :
    Effect.predict "alexff91/FitMirrorUp" tryonRoute
        (tryonPayload (Bytes.b64decode "aGVsbG8=") (Bytes.b64decode "d29ybGQ=") "")
      ∈ (service_tryonBase64 emptyDescBase64Request oAllOk).1 ∧
    ("" : String) ≠ defaultDescription := by
  decide

/-- C9 amended: an absent `garmentDescription` defaults to
"cloth fitting the person shape" on every endpoint, and a non-empty supplied
description is sent unchanged on every endpoint; an explicitly empty string
defaults only on the multipart endpoints (`||` defaulting), while
`/tryon/base64` and `/tryon/url` send the empty string unchanged
(destructuring defaulting). -/
theorem c9_amended_description_defaulting :
    ∀ (r : Request) (o : Oracle) (m rt : String) (p : Payload),
      (r.garmentDescription = none →
        ((Effect.predict m rt p ∈ (app_tryon r o).1 ∨
          Effect.predict m rt p ∈ (simple_tryon r o).1 ∨
          Effect.predict m rt p ∈ (service_tryon r o).1 ∨
          Effect.predict m rt p ∈ (service_tryonMedia r o).1) →
          p.description = defaultDescription) ∧
        ((Effect.predict m rt p ∈ (service_tryonBase64 r o).1 ∨
          Effect.predict m rt p ∈ (service_tryonUrl r o).1) →
          p.description = defaultDescription)) ∧
      (∀ s, r.garmentDescription = some s → s ≠ "" →
        ((Effect.predict m rt p ∈ (app_tryon r o).1 ∨
          Effect.predict m rt p ∈ (simple_tryon r o).1 ∨
          Effect.predict m rt p ∈ (service_tryon r o).1 ∨
          Effect.predict m rt p ∈ (service_tryonMedia r o).1) →
          p.description = s) ∧
        ((Effect.predict m rt p ∈ (service_tryonBase64 r o).1 ∨
          Effect.predict m rt p ∈ (service_tryonUrl r o).1) →
          p.description = s)) ∧
      (r.garmentDescription = some "" →
        ((Effect.predict m rt p ∈ (app_tryon r o).1 ∨
          Effect.predict m rt p ∈ (simple_tryon r o).1 ∨
          Effect.predict m rt p ∈ (service_tryon r o).1 ∨
          Effect.predict m rt p ∈ (service_tryonMedia r o).1) →
          p.description = defaultDescription) ∧
        ((Effect.predict m rt p ∈ (service_tryonBase64 r o).1 ∨
          Effect.predict m rt p ∈ (service_tryonUrl r o).1) →
          p.description = "")) := by
  intro r o m rt p
  refine ⟨?_, ?_, ?_⟩
  · intro hd
    constructor
    · intro h
      have := multipart_handlers_description r o m rt p h
      rw [hd] at this
      simpa [orDefault] using this
    · intro h
      have := base64url_handlers_description r o m rt p h
      rw [hd] at this
      simpa using this
  · intro s hd hs
    constructor
    · intro h
      have := multipart_handlers_description r o m rt p h
      rw [hd] at this
      simpa [orDefault, hs] using this
    · intro h
      have := base64url_handlers_description r o m rt p h
      rw [hd] at this
      simpa using this
  · intro hd
    constructor
    · intro h
      have := multipart_handlers_description r o m rt p h
      rw [hd] at this
      simpa [orDefault] using this
    · intro h
      have := base64url_handlers_description r o m rt p h
      rw [hd] at this
      simpa using this

/-- Witness for the amended C9: the concrete empty-description base64 request
yields a prediction whose description is the empty string. -/
theorem c9_witness :
    (tryonPayload (Bytes.b64decode "aGVsbG8=") (Bytes.b64decode "d29ybGQ=")
      "").description = "" :=
  ((c9_amended_description_defaulting emptyDescBase64Request oAllOk
      "alexff91/FitMirrorUp" tryonRoute
      (tryonPayload (Bytes.b64decode "aGVsbG8=") (Bytes.b64decode "d29ybGQ=")
        "")).2.2 rfl).2 (Or.inl (by decide))

/-- When the human slot has an uploaded file, the multipart script downloads
at most to the garment destination and the prediction's background is built
from the uploaded file; symmetrically for the garment slot. -/
theorem multipart_file_priority (mu : String) (tmo : Option Nat) (r : Request)
    (o : Oracle) (tail : List (Effect × Option String)) (p0 : String)
    (htail : ∀ x ∈ tail,
      (∀ u d t, x.1 ≠ Effect.download u d t) ∧
      (∀ m2 rt2 p2, x.1 ≠ Effect.predict m2 rt2 p2)) :
    (r.humanImageFile = some p0 →
      (∀ u d t, Effect.download u d t ∈ (multipartTryonScript mu tmo r o tail).map Prod.fst →
        d = garmentDownloadPath) ∧
      (∀ m2 rt2 p2, Effect.predict m2 rt2 p2 ∈ (multipartTryonScript mu tmo r o tail).map Prod.fst →
        p2.background = Bytes.resizedOf (Bytes.file p0) 400 600)) ∧
    (r.garmentImageFile = some p0 →
      (∀ u d t, Effect.download u d t ∈ (multipartTryonScript mu tmo r o tail).map Prod.fst →
        d = humanDownloadPath) ∧
      (∀ m2 rt2 p2, Effect.predict m2 rt2 p2 ∈ (multipartTryonScript mu tmo r o tail).map Prod.fst →
        p2.garment = Bytes.resizedOf (Bytes.file p0) 400 600)) := by
  constructor
  · intro hf
    have hb : (acquireImage r.humanImageFile r.humanImageURL humanDownloadPath tmo o) =
        { path := some p0, bytes := Bytes.file p0, script := [] } := by
      simp [acquireImage, hf]
    constructor
    · intro u d t h
      simp only [multipartTryonScript, resizeEntry, hb, List.map_append,
        List.map_cons, List.map_nil, List.mem_cons, List.mem_append,
        List.nil_append, List.not_mem_nil, or_false, false_or] at h
      rcases h with ((h2 | h2) | h2 | h2 | h2 | h2 | h2) | h2
      · exact absurd h2 (by simp)
      · obtain ⟨url2, h3⟩ := acquireImage_effects r.garmentImageFile r.garmentImageURL
          garmentDownloadPath tmo o _ h2
        simp only [Effect.download.injEq] at h3
        exact h3.2.1
      · exact absurd h2 (by simp)
      · exact absurd h2 (by simp)
      · exact absurd h2 (by simp)
      · exact absurd h2 (by simp)
      · exact absurd h2 (by simp)
      · rcases List.mem_map.mp h2 with ⟨x, hx, hfx⟩
        exact absurd hfx ((htail x hx).1 u d t)
    · intro m2 rt2 p2 h
      obtain ⟨_, _, h3⟩ := multipart_predict_shape mu tmo r o tail m2 rt2 p2
        (fun x hx => (htail x hx).2) h
      rw [hb] at h3
      subst h3
      simp [tryonPayload]
  · intro hg
    have hb : (acquireImage r.garmentImageFile r.garmentImageURL garmentDownloadPath tmo o) =
        { path := some p0, bytes := Bytes.file p0, script := [] } := by
      simp [acquireImage, hg]
    constructor
    · intro u d t h
      simp only [multipartTryonScript, resizeEntry, hb, List.map_append,
        List.map_cons, List.map_nil, List.mem_cons, List.mem_append,
        List.append_nil, List.nil_append, List.not_mem_nil, or_false, false_or] at h
      rcases h with ((h2 | h2) | h2 | h2 | h2 | h2 | h2) | h2
      · exact absurd h2 (by simp)
      · obtain ⟨url2, h3⟩ := acquireImage_effects r.humanImageFile r.humanImageURL
          humanDownloadPath tmo o _ h2
        simp only [Effect.download.injEq] at h3
        exact h3.2.1
      · exact absurd h2 (by simp)
      · exact absurd h2 (by simp)
      · exact absurd h2 (by simp)
      · exact absurd h2 (by simp)
      · exact absurd h2 (by simp)
      · rcases List.mem_map.mp h2 with ⟨x, hx, hfx⟩
        exact absurd hfx ((htail x hx).1 u d t)
    · intro m2 rt2 p2 h
      obtain ⟨_, _, h3⟩ := multipart_predict_shape mu tmo r o tail m2 rt2 p2
        (fun x hx => (htail x hx).2) h
      rw [hb] at h3
      subst h3
      simp [tryonPayload]

/-- C10: on every multipart try-on endpoint, when an image slot has both an
uploaded file and a source URL, the uploaded file is used as the image asset
(the prediction's corresponding image is built from the file) and the slot's
URL is never fetched: any download in the trace targets the other slot's
destination. -/
theorem c10_uploaded_file_wins :
    ∀ (r : Request) (o : Oracle) (p0 : String) (tr : List Effect × Response),
      (tr = app_tryon r o ∨ tr = simple_tryon r o ∨ tr = service_tryon r o ∨
        tr = service_tryonMedia r o) →
      (r.humanImageFile = some p0 →
        (∀ u d t, Effect.download u d t ∈ tr.1 → d = garmentDownloadPath) ∧
        (∀ m2 rt2 p2, Effect.predict m2 rt2 p2 ∈ tr.1 →
          p2.background = Bytes.resizedOf (Bytes.file p0) 400 600)) ∧
      (r.garmentImageFile = some p0 →
        (∀ u d t, Effect.download u d t ∈ tr.1 → d = humanDownloadPath) ∧
        (∀ m2 rt2 p2, Effect.predict m2 rt2 p2 ∈ tr.1 →
          p2.garment = Bytes.resizedOf (Bytes.file p0) 400 600)) := by
  intro r o p0 tr htr
  have lift : ∀ (mu : String) (tmo : Option Nat) (tail : List (Effect × Option String)),
      (∀ x ∈ tail,
        (∀ u d t, x.1 ≠ Effect.download u d t) ∧
        (∀ m2 rt2 p2, x.1 ≠ Effect.predict m2 rt2 p2)) →
      (∀ e ∈ tr.1, e ∈ (multipartTryonScript mu tmo r o tail).map Prod.fst) →
      (r.humanImageFile = some p0 →
        (∀ u d t, Effect.download u d t ∈ tr.1 → d = garmentDownloadPath) ∧
        (∀ m2 rt2 p2, Effect.predict m2 rt2 p2 ∈ tr.1 →
          p2.background = Bytes.resizedOf (Bytes.file p0) 400 600)) ∧
      (r.garmentImageFile = some p0 →
        (∀ u d t, Effect.download u d t ∈ tr.1 → d = humanDownloadPath) ∧
        (∀ m2 rt2 p2, Effect.predict m2 rt2 p2 ∈ tr.1 →
          p2.garment = Bytes.resizedOf (Bytes.file p0) 400 600)) := by
    intro mu tmo tail htail hsub
    obtain ⟨hH, hG⟩ := multipart_file_priority mu tmo r o tail p0 htail
    constructor
    · intro hf
      obtain ⟨hd, hp⟩ := hH hf
      exact ⟨fun u d t h => hd u d t (hsub _ h),
        fun m2 rt2 p2 h => hp m2 rt2 p2 (hsub _ h)⟩
    · intro hg
      obtain ⟨hd, hp⟩ := hG hg
      exact ⟨fun u d t h => hd u d t (hsub _ h),
        fun m2 rt2 p2 h => hp m2 rt2 p2 (hsub _ h)⟩
  rcases htr with h | h | h | h
  · subst h
    exact lift _ _ [] (by simp) (fun e he => runScript_mem _ _ e he)
  · subst h
    exact lift _ _ [] (by simp) (fun e he => runScript_mem _ _ e he)
  · subst h
    cases hm : getModelUrlByType r.type with
    | error m =>
      have htr0 : (service_tryon r o).1 = [] := by simp [service_tryon, hm]
      exact lift "x" none [] (by simp)
        (fun e he => by rw [htr0] at he; simp at he)
    | ok mu =>
      refine lift mu service_downloadImageConfig.timeoutMs [] (by simp) ?_
      intro e he
      obtain ⟨mu2, hm2, hs⟩ := service_tryon_mem r o e he
      rw [hm] at hm2
      cases hm2
      exact hs
  · subst h
    cases hm : getModelUrlByType r.type with
    | error m =>
      have htr0 : (service_tryonMedia r o).1 = [] := by simp [service_tryonMedia, hm]
      exact lift "x" none [] (by simp)
        (fun e he => by rw [htr0] at he; simp at he)
    | ok mu =>
      refine lift mu service_downloadImageConfig.timeoutMs
        [(Effect.fetchResult o.resultUrl, o.fetchErr)] (by simp) ?_
      intro e he
      obtain ⟨mu2, hm2, hs⟩ := service_tryonMedia_mem r o e he
      rw [hm] at hm2
      cases hm2
      exact hs

/-- A multipart request supplying both a file and a URL for each slot. -/
def bothSourcesRequest : Request :=
  { type := some "up"
    humanImageFile := some "uploads/h2"
    humanImageURL := some "http://images.example/human2.jpg"
    garmentImageFile := some "uploads/g2"
    garmentImageURL := some "http://images.example/garment2.jpg" }

/-- Witness for C10 at a concrete request with both sources: the prediction's
background is built from the uploaded file. -/
theorem c10_witness :
    (tryonPayload (Bytes.file "uploads/h2") (Bytes.file "uploads/g2")
      defaultDescription).background = Bytes.resizedOf (Bytes.file "uploads/h2") 400 600 :=
  ((c10_uploaded_file_wins bothSourcesRequest oAllOk "uploads/h2"
      (service_tryon bothSourcesRequest oAllOk)
      (Or.inr (Or.inr (Or.inl rfl)))).1 rfl).2
    "alexff91/FitMirrorUp" tryonRoute
    (tryonPayload (Bytes.file "uploads/h2") (Bytes.file "uploads/g2")
      defaultDescription)
    (by decide)

/-- C5: on `/tryon/base64` and `/tryon/media`, whenever the remote prediction
succeeds, the handler performs a secondary fetch of `result.data[0].url` and
responds with, respectively, the JSON envelope `{result: <base64 of the
fetched bytes>}` or the raw fetched bytes with `Content-Type: image/png`;
if the secondary fetch throws, the handler responds with the 500 JSON error
(no fallback result is substituted). -/
theorem c5_result_relay :
    ∀ (r : Request) (o : Oracle) (m rt : String) (p : Payload),
      o.predictErr = none →
      (Effect.predict m rt p ∈ (service_tryonBase64 r o).1 →
        (o.fetchErr = none →
          (service_tryonBase64 r o).2 =
            Response.json 200 (JsonBody.resultBase64 (Bytes.fetched o.resultUrl)) ∧
          Effect.fetchResult o.resultUrl ∈ (service_tryonBase64 r o).1) ∧
        (∀ msg, o.fetchErr = some msg →
          (service_tryonBase64 r o).2 = err500 msg)) ∧
      (Effect.predict m rt p ∈ (service_tryonMedia r o).1 →
        (o.fetchErr = none →
          (service_tryonMedia r o).2 =
            Response.media 200 "image/png" (Bytes.fetched o.resultUrl) ∧
          Effect.fetchResult o.resultUrl ∈ (service_tryonMedia r o).1) ∧
        (∀ msg, o.fetchErr = some msg →
          (service_tryonMedia r o).2 = err500 msg)) := by
  intro r o m rt p hpe
  constructor
  · -- /tryon/base64
    intro hmem
    cases hm : getModelUrlByType r.type with
    | error mm => simp [service_tryonBase64, hm] at hmem
    | ok mu =>
      cases hc : o.connectErr with
      | some mm => simp [service_tryonBase64, hm, hc] at hmem
      | none =>
        by_cases htb : (truthy r.humanImageBase64 && truthy r.garmentImageBase64) = true
        · have hval : service_tryonBase64 r o =
              (Effect.connect mu ::
                (runScript (base64TryonScript mu r o)
                  (Response.json 200 (JsonBody.resultBase64 (Bytes.fetched o.resultUrl)))).1,
               (runScript (base64TryonScript mu r o)
                  (Response.json 200 (JsonBody.resultBase64 (Bytes.fetched o.resultUrl)))).2) := by
            simp [service_tryonBase64, hm, hc, htb]
          rw [hval] at hmem
          simp only [List.mem_cons] at hmem
          rcases hmem with hEq | hmem
          · exact absurd hEq (by simp)
          obtain ⟨hm1, hm2, hm3⟩ := base64Script_predict_shape mu r o m rt p
            (runScript_mem _ _ _ hmem)
          rw [hm1, hm2, hm3] at hmem
          have hscript : base64TryonScript mu r o =
              ([(Effect.writeFile humanFromBase64Path, o.writeErr),
                (Effect.writeFile garmentFromBase64Path, o.writeErr),
                (Effect.resize (some humanFromBase64Path) humanResizedPath 400 600, o.resizeErr),
                (Effect.resize (some garmentFromBase64Path) garmentResizedPath 400 600, o.resizeErr),
                (Effect.readFile humanResizedPath, o.readErr),
                (Effect.readFile garmentResizedPath, o.readErr)] ++
               (Effect.predict mu tryonRoute
                  (tryonPayload (Bytes.b64decode (r.humanImageBase64.getD ""))
                    (Bytes.b64decode (r.garmentImageBase64.getD ""))
                    (r.garmentDescription.getD defaultDescription)), none) ::
               [(Effect.fetchResult o.resultUrl, o.fetchErr)]) := by
            simp [base64TryonScript, resizeEntry, hpe]
          rw [hscript] at hmem
          have hreach := runScript_reach _ _ _
            (Response.json 200 (JsonBody.resultBase64 (Bytes.fetched o.resultUrl)))
            (by
              intro x hx
              simp only [List.mem_cons, List.not_mem_nil, or_false] at hx
              rcases hx with rfl | rfl | rfl | rfl | rfl | rfl <;> simp) hmem
          rw [hval, hscript, hreach]
          cases hf : o.fetchErr with
          | none =>
            refine ⟨fun _ => ⟨?_, ?_⟩, ?_⟩
            · simp [runScript]
            · simp [runScript]
            · intro msg hmsg
              exact absurd hmsg (by simp)
          | some msg0 =>
            refine ⟨fun hmsg => absurd hmsg (by simp), ?_⟩
            intro msg hmsg
            simp only [Option.some.injEq] at hmsg
            subst hmsg
            simp [runScript]
        · simp [service_tryonBase64, hm, hc, htb] at hmem
  · -- /tryon/media
    intro hmem
    cases hm : getModelUrlByType r.type with
    | error mm => simp [service_tryonMedia, hm] at hmem
    | ok mu =>
      have hval : service_tryonMedia r o =
          runScript (multipartTryonScript mu service_downloadImageConfig.timeoutMs r o
            [(Effect.fetchResult o.resultUrl, o.fetchErr)])
            (Response.media 200 "image/png" (Bytes.fetched o.resultUrl)) := by
        simp [service_tryonMedia, hm]
      rw [hval] at hmem
      obtain ⟨hm1, hm2, hm3⟩ := multipart_predict_shape mu
        service_downloadImageConfig.timeoutMs r o
        [(Effect.fetchResult o.resultUrl, o.fetchErr)] m rt p (by simp)
        (runScript_mem _ _ _ hmem)
      rw [hm1, hm2, hm3] at hmem
      have hscript : multipartTryonScript mu service_downloadImageConfig.timeoutMs r o
          [(Effect.fetchResult o.resultUrl, o.fetchErr)] =
          (((Effect.connect mu, o.connectErr) ::
            ((acquireImage r.humanImageFile r.humanImageURL humanDownloadPath
                service_downloadImageConfig.timeoutMs o).script ++
             (acquireImage r.garmentImageFile r.garmentImageURL garmentDownloadPath
                service_downloadImageConfig.timeoutMs o).script ++
             [resizeEntry (acquireImage r.humanImageFile r.humanImageURL humanDownloadPath
                  service_downloadImageConfig.timeoutMs o).path humanResizedPath o,
              resizeEntry (acquireImage r.garmentImageFile r.garmentImageURL garmentDownloadPath
                  service_downloadImageConfig.timeoutMs o).path garmentResizedPath o,
              (Effect.readFile humanResizedPath, o.readErr),
              (Effect.readFile garmentResizedPath, o.readErr)])) ++
           (Effect.predict mu tryonRoute
              (tryonPayload
                (acquireImage r.humanImageFile r.humanImageURL humanDownloadPath
                  service_downloadImageConfig.timeoutMs o).bytes
                (acquireImage r.garmentImageFile r.garmentImageURL garmentDownloadPath
                  service_downloadImageConfig.timeoutMs o).bytes
                (orDefault r.garmentDescription defaultDescription)), none) ::
           [(Effect.fetchResult o.resultUrl, o.fetchErr)]) := by
        simp [multipartTryonScript, hpe, List.append_assoc]
      rw [hscript] at hmem
      have hreach := runScript_reach _ _ _
        (Response.media 200 "image/png" (Bytes.fetched o.resultUrl))
        (by
          intro x hx
          simp only [List.mem_cons, List.mem_append, List.not_mem_nil, or_false] at hx
          rcases hx with rfl | hx | rfl | rfl | rfl | rfl
          · simp
          · rcases hx with hx | hx
            · obtain ⟨url, hu⟩ := acquireImage_effects r.humanImageFile r.humanImageURL
                humanDownloadPath service_downloadImageConfig.timeoutMs o x.1
                (List.mem_map_of_mem Prod.fst hx)
              rw [hu]; simp
            · obtain ⟨url, hu⟩ := acquireImage_effects r.garmentImageFile r.garmentImageURL
                garmentDownloadPath service_downloadImageConfig.timeoutMs o x.1
                (List.mem_map_of_mem Prod.fst hx)
              rw [hu]; simp
          · simp [resizeEntry]
          · simp [resizeEntry]
          · simp
          · simp) hmem
      rw [hval, hscript, hreach]
      cases hf : o.fetchErr with
      | none =>
        refine ⟨fun _ => ⟨?_, ?_⟩, ?_⟩
        · simp [runScript]
        · simp [runScript]
        · intro msg hmsg
          exact absurd hmsg (by simp)
      | some msg0 =>
        refine ⟨fun hmsg => absurd hmsg (by simp), ?_⟩
        intro msg hmsg
        simp only [Option.some.injEq] at hmsg
        subst hmsg
        simp [runScript]

/-- A well-formed `/tryon/base64` request. -/
def fullBase64Request : Request :=
  { type := some "up"
    humanImageBase64 := some "aGVsbG8="
    garmentImageBase64 := some "d29ybGQ=" }

/-- Witness for C5: a concrete successful `/tryon/base64` run performs the
secondary fetch and responds with the base64 JSON envelope. -/
theorem c5_witness :
    (service_tryonBase64 fullBase64Request oAllOk).2 =
      Response.json 200 (JsonBody.resultBase64 (Bytes.fetched oAllOk.resultUrl)) ∧
    Effect.fetchResult oAllOk.resultUrl ∈ (service_tryonBase64 fullBase64Request oAllOk).1 :=
  ((c5_result_relay fullBase64Request oAllOk "alexff91/FitMirrorUp" tryonRoute
      (tryonPayload (Bytes.b64decode "aGVsbG8=") (Bytes.b64decode "d29ybGQ=")
        defaultDescription) rfl).1 (by decide)).1 rfl

/-! ## Rate limiting (main service) -/

/-- The `express-rate-limit` options object. -/
structure RateLimitConfig where
  windowMs : Nat
  max : Nat
  message : String
deriving DecidableEq, Repr

/-- The limiter installed by the main service via `app.use(limiter)`:
15-minute window, 100 requests per IP per window, plain-text message. -/
def limiter : RateLimitConfig :=
  { windowMs := 15 * 60 * 1000
    max := 100
    message := "Too many requests from this IP, please try again later." }

/-- Modelled from the spec: the `express-rate-limit` middleware itself is a
third-party dependency not present under src/; its documented default
memory-store semantics is a fixed-window counter per client address, reset
every `windowMs`.  `inWindow ip w` tests whether a logged request (arrival
time in ms, client address) belongs to window number `w` of address `ip`. -/
def inWindow (ip : String) (w : Nat) (q : Nat × String) : Bool :=
  q.2 == ip && q.1 / limiter.windowMs == w

/-- Modelled from the spec: a request at time `t` from `ip` is allowed when
fewer than `max` requests from `ip` were already logged in its window.  Every
request (allowed or denied) is logged. -/
def allowRequest (prior : List (Nat × String)) (t : Nat) (ip : String) : Bool :=
  prior.countP (inWindow ip (t / limiter.windowMs)) < limiter.max

/-- Modelled from the spec: the middleware passes an allowed request through
to the route handler and answers a denied one itself with the configured
plain-text message and status 429. -/
def rateLimitStep (prior : List (Nat × String)) (t : Nat) (ip : String)
    (next : Response) : Response :=
  if allowRequest prior t ip then next else Response.text 429 limiter.message

/-- Sequential processing of a request log, tagging each request with whether
the limiter allowed it. -/
def processFrom (prior : List (Nat × String)) :
    List (Nat × String) → List ((Nat × String) × Bool)
  | [] => []
  | q :: rest => ((q, allowRequest prior q.1 q.2)) :: processFrom (prior ++ [q]) rest

/-- In any window of any address, the limiter allows at most
`max − (already-logged requests of that window)` further requests. -/
theorem processFrom_window_bound (ip : String) (w : Nat) :
    ∀ (rest prior : List (Nat × String)),
      (processFrom prior rest).countP (fun x => inWindow ip w x.1 && x.2) ≤
        limiter.max - prior.countP (inWindow ip w) := by
  intro rest
  induction rest with
  | nil => intro prior; simp [processFrom]
  | cons q rest ih =>
    intro prior
    by_cases hq : inWindow ip w q = true
    · have hip : q.2 = ip := by
        have h0 := hq
        simp only [inWindow, Bool.and_eq_true, beq_iff_eq] at h0
        exact h0.1
      have hwq : q.1 / limiter.windowMs = w := by
        have h0 := hq
        simp only [inWindow, Bool.and_eq_true, beq_iff_eq] at h0
        exact h0.2
      have hallow : allowRequest prior q.1 q.2 =
          decide (prior.countP (inWindow ip w) < limiter.max) := by
        simp only [allowRequest, hip, hwq]
      have hprior : (prior ++ [q]).countP (inWindow ip w) =
          prior.countP (inWindow ip w) + 1 := by
        simp [List.countP_append, hq]
      have hrec := ih (prior ++ [q])
      rw [hprior] at hrec
      by_cases hcnt : prior.countP (inWindow ip w) < limiter.max
      · have hstep : allowRequest prior q.1 q.2 = true := by
          rw [hallow]; simpa using hcnt
        simp only [processFrom, List.countP_cons, hq, hstep, Bool.and_true,
          if_pos rfl, Bool.and_self]
        simp [hq]
        omega
      · have hstep : allowRequest prior q.1 q.2 = false := by
          rw [hallow]; simpa using hcnt
        simp only [processFrom, List.countP_cons]
        simp [hq, hstep]
        omega
    · have hq0 : inWindow ip w q = false := by
        cases h0 : inWindow ip w q with
        | true => exact absurd h0 hq
        | false => rfl
      have hprior : (prior ++ [q]).countP (inWindow ip w) =
          prior.countP (inWindow ip w) := by
        simp [List.countP_append, hq0]
      have hrec := ih (prior ++ [q])
      rw [hprior] at hrec
      simp only [processFrom, List.countP_cons]
      simp [hq0]
      omega

/-- C7: with the main service's limiter (100 requests per 15-minute window
per client address), at most 100 requests from an address are allowed within
any limiter window of any request log, and every denied request is answered
with the plain-text "Too many requests from this IP, please try again later."
response (status 429), which is not a JSON response. -/
theorem c7_rate_limit_window :
    ∀ (reqs : List (Nat × String)) (ip : String) (w : Nat),
      (processFrom [] reqs).countP (fun x => inWindow ip w x.1 && x.2) ≤ 100 ∧
      limiter.max = 100 ∧
      limiter.windowMs = 15 * 60 * 1000 ∧
      (∀ prior t next, allowRequest prior t ip = false →
        rateLimitStep prior t ip next = Response.text 429 limiter.message) ∧
      (∀ st b, Response.text 429 limiter.message ≠ Response.json st b) := by
  intro reqs ip w
  refine ⟨?_, rfl, rfl, ?_, ?_⟩
  · have h := processFrom_window_bound ip w reqs []
    simpa [limiter] using h
  · intro prior t next hdeny
    simp [rateLimitStep, hdeny]
  · intro st b
    simp

set_option maxRecDepth 10000 in
/-- Witness for C7: with 100 requests already logged for an address in the
current window, the next request from that address gets the plain-text
limiter response. -/
theorem c7_witness :
    rateLimitStep (List.replicate 100 (0, "10.0.0.1")) 5 "10.0.0.1"
        (Response.json 200 JsonBody.inferenceResult) =
      Response.text 429 limiter.message :=
  (c7_rate_limit_window [] "10.0.0.1" 0).2.2.2.1
    (List.replicate 100 (0, "10.0.0.1")) 5
    (Response.json 200 JsonBody.inferenceResult) (by decide)

/-! ## Concurrent requests over the shared scratch directory -/

/-- Shared scratch-directory state: path-to-content bindings, newest first. -/
abbrev ScratchFS := List (String × Bytes)

/-- Writing a file replaces (shadows) any earlier content at that path. -/
def fsWrite (fs : ScratchFS) (p : String) (b : Bytes) : ScratchFS := (p, b) :: fs

/-- Reading a file sees the most recent write to that path. -/
def fsRead (fs : ScratchFS) (p : String) : Option Bytes :=
  match fs with
  | [] => none
  | (q, b) :: rest => if q = p then some b else fsRead rest p

/-- The two scratch-directory interactions of a try-on handler relevant to
cross-request interference on the human image: `resizeImage` writing its
400×600 output to a path, and `readLocalFile` reading that path back to build
the prediction payload. -/
inductive ConcStep where
  | writeResized (path : String) (src : Bytes)
  | predictFrom (path : String)
deriving DecidableEq, Repr

/-- The human-image step sequence of every try-on handler: the resized output
always goes to the fixed `uploads/humanImage_resized.jpg` path, independent
of the request, and the prediction reads that same fixed path. -/
def tryonConcSteps (humanSrc : Bytes) : List ConcStep :=
  [ConcStep.writeResized humanResizedPath humanSrc,
   ConcStep.predictFrom humanResizedPath]

/-- Effect of one step on the shared scratch directory; a `predictFrom` step
reports the image the request sends to the remote model. -/
def stepOn (fs : ScratchFS) : ConcStep → ScratchFS × Option Bytes
  | ConcStep.writeResized p b => (fsWrite fs p (Bytes.resizedOf b 400 600), none)
  | ConcStep.predictFrom p => (fs, fsRead fs p)

/-- Interleaved execution of two concurrent requests over the shared scratch
directory (`false` = request 1 takes the next step, `true` = request 2);
returns the image each request sends in its prediction, if it predicted. -/
def runSchedule : List Bool → List ConcStep → List ConcStep → ScratchFS →
    Option Bytes × Option Bytes
  | [], _, _, _ => (none, none)
  | false :: sch, s1, s2, fs =>
    match s1 with
    | [] => runSchedule sch [] s2 fs
    | st :: s1rest =>
      let r := stepOn fs st
      let rest := runSchedule sch s1rest s2 r.1
      ((match r.2 with | some v => some v | none => rest.1), rest.2)
  | true :: sch, s1, s2, fs =>
    match s2 with
    | [] => runSchedule sch s1 [] fs
    | st :: s2rest =>
      let r := stepOn fs st
      let rest := runSchedule sch s1 s2rest r.1
      (rest.1, (match r.2 with | some v => some v | none => rest.2))

/-- C8: the try-on handlers write their resized intermediate images to the
same fixed scratch filenames independent of the request, so two concurrent
requests share mutable state; under the interleaving (request A writes,
request B writes, request A predicts), request A's prediction carries
request B's resized image instead of its own — a response that does not
correspond to its own inputs.  The last two conjuncts show two different
concrete requests both resizing to the fixed `humanImage_resized.jpg` path
in the actual handler. -/
theorem c8_shared_scratch_cross_contamination :
    tryonConcSteps (Bytes.file "uploads/reqA_human.jpg") =
      [ConcStep.writeResized humanResizedPath (Bytes.file "uploads/reqA_human.jpg"),
       ConcStep.predictFrom humanResizedPath] ∧
    tryonConcSteps (Bytes.file "uploads/reqB_human.jpg") =
      [ConcStep.writeResized humanResizedPath (Bytes.file "uploads/reqB_human.jpg"),
       ConcStep.predictFrom humanResizedPath] ∧
    runSchedule [false, true, false]
        (tryonConcSteps (Bytes.file "uploads/reqA_human.jpg"))
        (tryonConcSteps (Bytes.file "uploads/reqB_human.jpg")) [] =
      (some (Bytes.resizedOf (Bytes.file "uploads/reqB_human.jpg") 400 600), none) ∧
    Bytes.resizedOf (Bytes.file "uploads/reqB_human.jpg") 400 600 ≠
      Bytes.resizedOf (Bytes.file "uploads/reqA_human.jpg") 400 600 ∧
    Effect.resize (some "uploads/h1") humanResizedPath 400 600
      ∈ (service_tryon uploadTryonRequest oAllOk).1 ∧
    Effect.resize (some "uploads/hB") humanResizedPath 400 600
      ∈ (service_tryon
          { type := some "up"
            humanImageFile := some "uploads/hB"
            garmentImageFile := some "uploads/gB" } oAllOk).1 := by
  decide
